import Mathlib

/-
Verification of the bkm10 library (BKM10 DVCS differential cross-section code)
against its natural-language specification.

The development shallowly embeds the Python sources:
  - bkm10_lib/inputs.py      : the BKM10Inputs dataclass,
  - bkm10_lib/validation.py  : validate_configuration,
  - bkm10_lib/core.py        : DifferentialCrossSection (construction pipeline and
                               the observable compositors compute_cross_section,
                               compute_bsa, compute_dsa),
  - bkm10_lib/formalism.py   : BKMFormalism (derived-kinematics chain).

Python dictionaries are embedded as association lists over an inductive value
type; raised exceptions are embedded as the error side of Except.  Floating
point scalars are embedded as real numbers, except where numpy NaN/Inf
semantics decide a claim, where an explicit PyFloat type (finite / nan /
inf / neginf) models the IEEE special values that numpy returns without
raising.  Error-message strings keep the wording of the source up to
punctuation (quote characters are dropped).
-/

noncomputable section

/-- Modelled from the spec: the CFFInputs record (module bkm10_lib/cff_inputs.py
is absent from src; validation.py imports it and the tests construct it with the
four keyword arguments below).  Per the spec it is an immutable record of four
complex Compton form factors. -/
structure CFFInputs where
  compton_form_factor_h : ℂ
  compton_form_factor_h_tilde : ℂ
  compton_form_factor_e : ℂ
  compton_form_factor_e_tilde : ℂ

/-- The BKM10Inputs dataclass of bkm10_lib/inputs.py, field for field. -/
structure BKM10Inputs where
  squared_Q_momentum_transfer : ℝ
  x_Bjorken : ℝ
  squared_hadronic_momentum_transfer_t : ℝ
  lepton_energy_fraction_y : ℝ
  epsilon : ℝ
  lab_kinematics_k : ℝ
  lepton_helicity : ℝ
  target_polarization : ℝ
  azimuthal_phi : ℝ
  compton_form_factor_h : ℂ
  compton_form_factor_h_tilde : ℂ
  compton_form_factor_e : ℂ
  compton_form_factor_e_tilde : ℂ
  use_ww : Bool := false
  verbose : Bool := false

/-- Python values that can appear in a configuration dictionary: BKM10Inputs
instances, CFFInputs instances, booleans, None, floats (rationals suffice for
the dictionary layer) and strings. -/
inductive PyVal where
  | kin (k : BKM10Inputs)
  | cff (c : CFFInputs)
  | pybool (b : Bool)
  | pynone
  | pyfloat (q : ℚ)
  | pystr (s : String)

/-- A Python dict with string keys, as an association list. -/
def PyDict := List (String × PyVal)

/-- Dictionary lookup (d[k] returning None-or-value). -/
def dictGet (d : PyDict) (key : String) : Option PyVal :=
  match d with
  | [] => none
  | (k, v) :: rest => if k = key then some v else dictGet rest key

/-- Python truthiness of the embedded values.  Dataclass instances (BKM10Inputs,
CFFInputs) define neither a bool nor a len hook and are always truthy. -/
def pyTruthy : PyVal → Bool
  | .kin _ => true
  | .cff _ => true
  | .pybool b => b
  | .pynone => false
  | .pyfloat q => decide (q ≠ 0)
  | .pystr s => decide (s ≠ "")

/-- validate_configuration of bkm10_lib/validation.py.  The required-keys loop
checks presence of kinematics then cff_inputs; then each value is checked for
truthiness and for being an instance of the right dataclass; on success the
very same dictionary object is returned.  Raised ValueError/TypeError become
the error side of Except. -/
def validateConfiguration (d : PyDict) (_verbose : Bool) : Except String PyDict :=
  match dictGet d "kinematics" with
  | none => .error "ValueError: Missing required key in config: kinematics"
  | some kinematicSettings =>
    match dictGet d "cff_inputs" with
    | none => .error "ValueError: Missing required key in config: cff_inputs"
    | some cffSettings =>
      if pyTruthy kinematicSettings = false then
        .error "ValueError: Missing kinematics key."
      else
        match kinematicSettings with
        | .kin _ =>
          if pyTruthy cffSettings = false then
            .error "ValueError: Missing cff_inputs key."
          else
            match cffSettings with
            | .cff _ => .ok d
            | _ => .error "TypeError: cff_inputs key must be a CFFInputs instance."
        | _ => .error "TypeError: kinematics key must be a BKM10Inputs instance."

theorem validateConfiguration_ok_eq (d : PyDict) (v : Bool) (r : PyDict)
    (h : validateConfiguration d v = Except.ok r) : r = d := by
  unfold validateConfiguration at h
  repeat' split at h
  all_goals simp_all

/-- numpy floating scalars as used by formalism.py: a finite real, NaN, or a
signed infinity.  Under the default numpy error state the operations below
emit warnings but never raise, which is what makes the derivation chain of
BKMFormalism return NaN/Inf silently instead of signalling errors. -/
inductive PyFloat where
  | finite (x : ℝ)
  | nan
  | inf
  | neginf

/-- numpy sqrt: NaN (with a warning, not an exception) on negative input. -/
def npSqrt : PyFloat → PyFloat
  | .finite x => if x < 0 then .nan else .finite (Real.sqrt x)
  | .nan => .nan
  | .inf => .inf
  | .neginf => .nan

/-- numpy negation. -/
def npNeg : PyFloat → PyFloat
  | .finite x => .finite (-x)
  | .nan => .nan
  | .inf => .neginf
  | .neginf => .inf

/-- numpy addition with IEEE special values. -/
def npAdd : PyFloat → PyFloat → PyFloat
  | .finite a, .finite b => .finite (a + b)
  | .nan, _ => .nan
  | _, .nan => .nan
  | .inf, .neginf => .nan
  | .neginf, .inf => .nan
  | .inf, _ => .inf
  | _, .inf => .inf
  | .neginf, _ => .neginf
  | _, .neginf => .neginf

/-- numpy subtraction. -/
def npSub (a b : PyFloat) : PyFloat := npAdd a (npNeg b)

/-- numpy multiplication with IEEE special values. -/
def npMul : PyFloat → PyFloat → PyFloat
  | .finite a, .finite b => .finite (a * b)
  | .nan, _ => .nan
  | _, .nan => .nan
  | .inf, .inf => .inf
  | .inf, .neginf => .neginf
  | .neginf, .inf => .neginf
  | .neginf, .neginf => .inf
  | .inf, .finite b => if b = 0 then .nan else if 0 < b then .inf else .neginf
  | .finite a, .inf => if a = 0 then .nan else if 0 < a then .inf else .neginf
  | .neginf, .finite b => if b = 0 then .nan else if 0 < b then .neginf else .inf
  | .finite a, .neginf => if a = 0 then .nan else if 0 < a then .neginf else .inf

/-- numpy division with IEEE special values: division by zero yields a signed
infinity (or NaN for 0/0) together with a runtime warning, never an
exception. -/
def npDiv : PyFloat → PyFloat → PyFloat
  | .finite a, .finite b =>
      if b = 0 then (if a = 0 then .nan else if 0 < a then .inf else .neginf)
      else .finite (a / b)
  | .nan, _ => .nan
  | _, .nan => .nan
  | .finite _, .inf => .finite 0
  | .finite _, .neginf => .finite 0
  | .inf, .inf => .nan
  | .inf, .neginf => .nan
  | .neginf, .inf => .nan
  | .neginf, .neginf => .nan
  | .inf, .finite b => if 0 ≤ b then .inf else .neginf
  | .neginf, .finite b => if 0 ≤ b then .neginf else .inf

/-- Modelled from the spec: the constant _MASS_OF_PROTON_IN_GEV imported by
formalism.py from bkm10_lib/constants.py, a module absent from src.  The
standard proton mass in GeV, the value consistent with the literal epsilon
check of the spec (epsilon about 0.47293561 at Q2 = 1.82, xB = 0.34). -/
def MASS_OF_PROTON_IN_GEV : ℝ := 0.93827208816

/-- The try-block body of BKMFormalism._calculate_epsilon:
(2 * x_Bjorken * mass) / np.sqrt(Q2). -/
def calcEpsilon (Q2 xB : ℝ) : PyFloat :=
  npDiv (.finite (2 * xB * MASS_OF_PROTON_IN_GEV)) (npSqrt (.finite Q2))

/-- BKMFormalism._calculate_epsilon as executed: the try-block never raises
for float inputs (numpy returns NaN or a signed infinity with a warning on
Q2 less than or equal to zero), so the except branch (print and return the
sentinel 0.0) is dead and the computed value is returned directly. -/
def calculateEpsilonRun (Q2 xB : ℝ) : Except String PyFloat :=
  Except.ok (calcEpsilon Q2 xB)

/-- The try-block body of _calculate_lepton_energy_fraction_y:
np.sqrt(Q2) / (epsilon * k); again no exception is possible. -/
def calcLeptonEnergyFractionY (Q2 k : ℝ) (eps : PyFloat) : PyFloat :=
  npDiv (npSqrt (.finite Q2)) (npMul eps (.finite k))

/-- _calculate_skewness_parameter: plain Python float arithmetic, where a zero
divisor raises ZeroDivisionError, which the internal except branch turns into
the sentinel 0.0. -/
def calcSkewness (Q2 xB t : ℝ) : PyFloat :=
  if Q2 = 0 then .finite 0
  else if 2 - xB + xB * t / Q2 = 0 then .finite 0
  else .finite (xB * (1 + t / (2 * Q2)) / (2 - xB + xB * t / Q2))

/-- The try-block body of _calculate_t_minimum:
-1 * Q2 * (2 * (1 - xB) * (1 - np.sqrt(1 + eps ** 2)) + eps ** 2)
  / (4 * xB * (1 - xB) + eps ** 2). -/
def calcTMinimum (Q2 xB : ℝ) (eps : PyFloat) : PyFloat :=
  npDiv
    (npMul (.finite (-1 * Q2))
      (npAdd
        (npMul (.finite (2 * (1 - xB)))
          (npSub (.finite 1) (npSqrt (npAdd (.finite 1) (npMul eps eps)))))
        (npMul eps eps)))
    (npAdd (.finite (4 * xB * (1 - xB))) (npMul eps eps))

/-- _calculate_t_prime: t - t_minimum. -/
def calcTPrime (t : ℝ) (tmin : PyFloat) : PyFloat :=
  npSub (.finite t) tmin

/-- The attribute state of a BKMFormalism object at the moment
_calculate_k_tilde runs: __init__ has set kinematics, fomalism_version (sic),
verbose, epsilon, lepton_energy_fraction, skewness_parameter, t_minimum and
t_prime. -/
structure BKMPreKTildeState where
  kinematics : BKM10Inputs
  epsilon : PyFloat
  lepton_energy_fraction : PyFloat
  skewness_parameter : PyFloat
  t_minimum : PyFloat
  t_prime : PyFloat

/-- Python getattr restricted to the numeric derived attributes that exist on
the object when _calculate_k_tilde runs; any other name is an
AttributeError. -/
def bkmNumericAttr (s : BKMPreKTildeState) (name : String) : Option PyFloat :=
  if name = "epsilon" then some s.epsilon
  else if name = "lepton_energy_fraction" then some s.lepton_energy_fraction
  else if name = "skewness_parameter" then some s.skewness_parameter
  else if name = "t_minimum" then some s.t_minimum
  else if name = "t_prime" then some s.t_prime
  else none

/-- The AttributeError raised by _calculate_k_tilde, line 301 of formalism.py:
the local binding reads self.squared_hadronic_momentum_transfer_t_minimum, an
attribute that __init__ never sets (the value lives in self.t_minimum).  The
read sits before the try-block, so the exception propagates out of the
method. -/
def kTildeAttributeErrorMsg : String :=
  "AttributeError: BKMFormalism object has no attribute squared_hadronic_momentum_transfer_t_minimum"

/-- _calculate_k_tilde of formalism.py.  The leading attribute reads happen
outside the try-block; the read of
self.squared_hadronic_momentum_transfer_t_minimum raises AttributeError before
the try-block is entered.  Were the attribute present, the try-block would
compute np.sqrt(tmin - t) * np.sqrt((1 - xB) * np.sqrt(1 + eps ** 2)
+ (tmin - t) * (eps ** 2 + 4 * (1 - xB) * xB) / (4 * Q2)). -/
def calcKTildeStep (s : BKMPreKTildeState) : Except String PyFloat :=
  match bkmNumericAttr s "squared_hadronic_momentum_transfer_t_minimum" with
  | none => .error kTildeAttributeErrorMsg
  | some tminAttr =>
    let t := s.kinematics.squared_hadronic_momentum_transfer_t
    let Q2 := s.kinematics.squared_Q_momentum_transfer
    let xB := s.kinematics.x_Bjorken
    let tminMinusT := npSub tminAttr (.finite t)
    let secondRoot :=
      npAdd
        (npMul (.finite (1 - xB)) (npSqrt (npAdd (.finite 1) (npMul s.epsilon s.epsilon))))
        (npDiv
          (npMul tminMinusT (npAdd (npMul s.epsilon s.epsilon) (.finite (4 * (1 - xB) * xB))))
          (.finite (4 * Q2)))
    .ok (npMul (npSqrt tminMinusT) (npSqrt secondRoot))

/-- The try-block body of _calculate_k:
np.sqrt((1 - y + eps ** 2 * y ** 2 / 4) / Q2) * k_tilde. -/
def calcK (Q2 : ℝ) (eps y kt : PyFloat) : PyFloat :=
  npMul
    (npSqrt (npDiv
      (npAdd (npSub (.finite 1) y) (npDiv (npMul (npMul eps eps) (npMul y y)) (.finite 4)))
      (.finite Q2)))
    kt

/-- _calculate_k_dot_delta: its try-block references the undefined names
convert_degrees_to_radians and azimuthal_phi, so it always raises NameError,
which the internal except branch converts into the sentinel 0.0. -/
def calcKDotDelta : PyFloat := .finite 0

/-- The fully initialised BKMFormalism attribute state (never reached: see
bkmFormalismInit). -/
structure BKMFormalismState where
  pre : BKMPreKTildeState
  k_tilde : PyFloat
  kinematic_k : PyFloat
  k_dot_delta : PyFloat

/-- BKMFormalism.__init__ of formalism.py: runs the derivation chain
epsilon, y, xi, t_minimum, t_prime, then _calculate_k_tilde, whose
AttributeError aborts construction before k and k-dot-delta are reached. -/
def bkmFormalismInit (inputs : BKM10Inputs) : Except String BKMFormalismState :=
  let Q2 := inputs.squared_Q_momentum_transfer
  let xB := inputs.x_Bjorken
  let t := inputs.squared_hadronic_momentum_transfer_t
  let k := inputs.lab_kinematics_k
  let eps := calcEpsilon Q2 xB
  let y := calcLeptonEnergyFractionY Q2 k eps
  let xi := calcSkewness Q2 xB t
  let tmin := calcTMinimum Q2 xB eps
  let tp := calcTPrime t tmin
  let s : BKMPreKTildeState :=
    { kinematics := inputs, epsilon := eps, lepton_energy_fraction := y,
      skewness_parameter := xi, t_minimum := tmin, t_prime := tp }
  match calcKTildeStep s with
  | .error e => .error e
  | .ok kt =>
    .ok { pre := s, k_tilde := kt, kinematic_k := calcK Q2 eps y kt,
          k_dot_delta := calcKDotDelta }

/-- The kinematic settings of the literal end-to-end scenario of the spec and
of tests/test_derived_quantities.py: Q2 = 1.82, xB = 0.34, t = -0.17,
k = 5.75, CFFs H = -0.897+2.421i, Ht = 2.444+1.131i, E = -0.541+0.903i,
Et = 2.207+5.383i.  The remaining dataclass fields are not read by the
formalism code and are set to zero. -/
def testKinematics : BKM10Inputs :=
  { squared_Q_momentum_transfer := 1.82
    x_Bjorken := 0.34
    squared_hadronic_momentum_transfer_t := -0.17
    lepton_energy_fraction_y := 0
    epsilon := 0
    lab_kinematics_k := 5.75
    lepton_helicity := 0
    target_polarization := 0
    azimuthal_phi := 0
    compton_form_factor_h := ⟨-0.897, 2.421⟩
    compton_form_factor_h_tilde := ⟨2.444, 1.131⟩
    compton_form_factor_e := ⟨-0.541, 0.903⟩
    compton_form_factor_e_tilde := ⟨2.207, 5.383⟩
    use_ww := true
    verbose := false }

/-- The matching CFF inputs record. -/
def testCffs : CFFInputs :=
  { compton_form_factor_h := ⟨-0.897, 2.421⟩
    compton_form_factor_h_tilde := ⟨2.444, 1.131⟩
    compton_form_factor_e := ⟨-0.541, 0.903⟩
    compton_form_factor_e_tilde := ⟨2.207, 5.383⟩ }

/-- The parameter names accepted by BKMFormalism.__init__ in
formalism.py: (self,) inputs, formalism_version, verbose. -/
def bkmInitParamNames : List String :=
  ["inputs", "formalism_version", "verbose"]

/-- The keyword arguments that
DifferentialCrossSection._build_formalism_beam_target passes to
BKMFormalism(...) in core.py, lines 350-360. -/
def buildFormalismKwargNames : List String :=
  ["inputs", "cff_values", "lepton_polarization", "target_polarization",
   "using_ww", "bh_on", "dvcs_on", "interference_on", "verbose", "debugging"]

/-- The message of the generic exception re-raised by the except branches of
_initialize_from_config and _build_formalism_beam_target in core.py. -/
def validationFailMsg : String :=
  "Exception: Error occurred during validation..."

/-- The message of the generic exception raised by
DifferentialCrossSection.__init__ when _initialize_from_config fails. -/
def initFailMsg : String :=
  "Exception: Unable to initialize configuration!"

/-- DifferentialCrossSection._build_formalism_beam_target: calls
BKMFormalism(inputs = ..., cff_values = ..., ...).  Python raises TypeError
for the unexpected keyword arguments (BKMFormalism.__init__ accepts only
inputs, formalism_version and verbose) before the constructor body runs; were
the keywords accepted, the body itself would abort (see bkmFormalismInit).
The local try/except re-raises any failure with validationFailMsg. -/
def buildFormalismBeamTarget (K : BKM10Inputs) (_leptonPolarization _targetPolarization : ℚ) :
    Except String BKMFormalismState :=
  if buildFormalismKwargNames.all (fun k => bkmInitParamNames.contains k) then
    match bkmFormalismInit K with
    | .error _ => .error validationFailMsg
    | .ok s => .ok s
  else
    .error validationFailMsg

/-- The data the configured DifferentialCrossSection would hold if
_initialize_from_config ever succeeded. -/
structure DCSConfiguredData where
  kinematic_inputs : BKM10Inputs
  cff_inputs_val : PyVal
  using_ww : PyVal
  formalism_plus_beam_plus_target : BKMFormalismState
  formalism_minus_beam_plus_target : BKMFormalismState
  formalism_plus_beam_minus_target : BKMFormalismState
  formalism_minus_beam_minus_target : BKMFormalismState

/-- The body of the try-block of
DifferentialCrossSection._initialize_from_config after validation: extract
kinematics, cff_inputs and using_ww (the last with a bare subscript - a
missing key is a KeyError), then build the four polarised formalisms.  Any
failure is re-raised by the except branch as the generic validation
failure. -/
def initExtractAndBuild (vd : PyDict) : Except String DCSConfiguredData :=
  match dictGet vd "kinematics", dictGet vd "cff_inputs" with
  | some (.kin K), some cffVal =>
    match dictGet vd "using_ww" with
    | none => .error validationFailMsg
    | some ww =>
      match buildFormalismBeamTarget K 1 (1/2) with
      | .error _ => .error validationFailMsg
      | .ok fpp =>
        match buildFormalismBeamTarget K (-1) (1/2) with
        | .error _ => .error validationFailMsg
        | .ok fmp =>
          match buildFormalismBeamTarget K 1 (-(1/2)) with
          | .error _ => .error validationFailMsg
          | .ok fpm =>
            match buildFormalismBeamTarget K (-1) (-(1/2)) with
            | .error _ => .error validationFailMsg
            | .ok fmm =>
              .ok { kinematic_inputs := K, cff_inputs_val := cffVal,
                    using_ww := ww,
                    formalism_plus_beam_plus_target := fpp,
                    formalism_minus_beam_plus_target := fmp,
                    formalism_plus_beam_minus_target := fpm,
                    formalism_minus_beam_minus_target := fmm }
  | _, _ => .error validationFailMsg

/-- DifferentialCrossSection._initialize_from_config: validate the dictionary
(a validation failure is re-raised with the generic message), then extract
the keys and build the four formalisms. -/
def initFromConfig (d : PyDict) : Except String DCSConfiguredData :=
  match validateConfiguration d false with
  | .error _ => .error validationFailMsg
  | .ok vd => initExtractAndBuild vd

/-- The observable state of a DifferentialCrossSection instance after
__init__. -/
structure DCSInstance where
  passed_configuration : Bool
  configured : Option DCSConfiguredData

/-- DifferentialCrossSection.__init__ of core.py: configuration_mode is set
iff the configuration argument is not None; in configuration mode the
try-block around _initialize_from_config converts any failure into the
generic initialisation exception. -/
def dcsInit (configuration : Option PyDict) : Except String DCSInstance :=
  match configuration with
  | none => .ok { passed_configuration := false, configured := none }
  | some d =>
    match initFromConfig d with
    | .error _ => .error initFailMsg
    | .ok cfg => .ok { passed_configuration := true, configured := some cfg }

theorem buildFormalismBeamTarget_error (K : BKM10Inputs) (lp tp : ℚ) :
    buildFormalismBeamTarget K lp tp = .error validationFailMsg := by
  rfl

theorem initExtractAndBuild_error (vd : PyDict) :
    initExtractAndBuild vd = .error validationFailMsg := by
  unfold initExtractAndBuild
  rcases hk : dictGet vd "kinematics" with _ | kv <;>
    rcases hc : dictGet vd "cff_inputs" with _ | cv <;>
      first
      | rfl
      | (cases kv <;>
          first
          | rfl
          | (rcases hw : dictGet vd "using_ww" with _ | ww <;> rfl))

theorem initFromConfig_error (d : PyDict) :
    initFromConfig d = .error validationFailMsg := by
  unfold initFromConfig
  rcases hv : validateConfiguration d false with e | vd
  · rfl
  · exact initExtractAndBuild_error vd

theorem dcsInit_some_error (d : PyDict) :
    dcsInit (some d) = .error initFailMsg := by
  have h := initFromConfig_error d
  show (match initFromConfig d with
    | Except.error _ => Except.error initFailMsg
    | Except.ok cfg =>
        Except.ok ({ passed_configuration := true, configured := some cfg } : DCSInstance)) =
      Except.error initFailMsg
  rw [h]

/-- Modelled from the spec: the coefficient interface of the full BKMFormalism
(compute_c0_coefficient .. compute_s3_coefficient and
compute_cross_section_prefactor), which core.py calls but which is absent
from the formalism.py in src.  Per the spec, each instance, fixed at one
(lepton helicity, target polarization) pair, exposes seven Fourier-mode
coefficient operations, each a function of the (already Trento-shifted)
azimuthal angle, plus a polarization-independent scalar prefactor. -/
structure BKMFormalismModel where
  c0 : ℝ → ℝ
  c1 : ℝ → ℝ
  c2 : ℝ → ℝ
  c3 : ℝ → ℝ
  s1 : ℝ → ℝ
  s2 : ℝ → ℝ
  s3 : ℝ → ℝ
  prefactor : ℝ

/-- A configured DifferentialCrossSection as seen by the observable methods of
core.py: the four polarised formalism instances
(lambda in +1, -1 crossed with Lambda in +0.5, -0.5). -/
structure DCSModel where
  formalism_plus_beam_plus_target : BKMFormalismModel
  formalism_minus_beam_plus_target : BKMFormalismModel
  formalism_plus_beam_minus_target : BKMFormalismModel
  formalism_minus_beam_minus_target : BKMFormalismModel

/-- The harmonic sum each observable method of core.py builds from one
formalism instance:
c0(psi)*cos(0*psi) + c1(psi)*cos(1*psi) + c2(psi)*cos(2*psi)
+ c3(psi)*cos(3*psi) + s1(psi)*sin(1*psi) + s2(psi)*sin(2*psi)
+ s3(psi)*sin(3*psi), with psi the Trento-shifted angle. -/
def harmonicSum (f : BKMFormalismModel) (psi : ℝ) : ℝ :=
  f.c0 psi * Real.cos (0 * psi)
    + f.c1 psi * Real.cos (1 * psi)
    + f.c2 psi * Real.cos (2 * psi)
    + f.c3 psi * Real.cos (3 * psi)
    + f.s1 psi * Real.sin (1 * psi)
    + f.s2 psi * Real.sin (2 * psi)
    + f.s3 psi * Real.sin (3 * psi)

/-- DifferentialCrossSection.compute_prefactor: always taken from the
(+ beam, + target) formalism. -/
def computePrefactor (D : DCSModel) : ℝ :=
  D.formalism_plus_beam_plus_target.prefactor

/-- The unit-conversion constant .389379 * 1000000 applied by
compute_cross_section (GeV^-2 to nb). -/
def unitConversion : ℝ := 0.389379 * 1000000

/-- The error raised by the final else of compute_cross_section. -/
def csNotImplementedMsg : String :=
  "NotImplementedError: Unknown setting of lambda and Lambda"

/-- DifferentialCrossSection.compute_cross_section of core.py.  The angle
array is Trento-shifted (phi -> pi - phi; the convention flag is always on),
the four polarised harmonic sums and the shared prefactor are computed, and
the polarization branch ladder follows.  Note the fall-through: the local
differential_cross_section is initialised to 0.0, the inner branches only
test Lambda in (0, +0.5, -0.5) with no inner else, and only the outer else
(lepton helicity outside -1, 0, +1) raises. -/
def computeCrossSection (D : DCSModel) (phi : ℝ) (lam Lam : ℚ) : Except String ℝ :=
  let psi : ℝ := Real.pi - phi
  let spp := harmonicSum D.formalism_plus_beam_plus_target psi
  let smp := harmonicSum D.formalism_minus_beam_plus_target psi
  let spm := harmonicSum D.formalism_plus_beam_minus_target psi
  let smm := harmonicSum D.formalism_minus_beam_minus_target psi
  let pref := computePrefactor D
  if lam = 0 then
    if Lam = 0 then
      .ok (0.25 * (unitConversion * (pref * (spp + smp + spm + smm))))
    else if Lam = 1/2 then
      .ok (0.5 * (unitConversion * (pref * (spp + smp))))
    else if Lam = -(1/2) then
      .ok (0.5 * (unitConversion * (pref * (spm + smm))))
    else .ok 0
  else if lam = 1 then
    if Lam = 0 then
      .ok (0.5 * (unitConversion * (pref * (spp + spm))))
    else if Lam = 1/2 then
      .ok (unitConversion * (pref * spp))
    else if Lam = -(1/2) then
      .ok (unitConversion * (pref * spm))
    else .ok 0
  else if lam = -1 then
    if Lam = 0 then
      .ok (0.5 * (unitConversion * (pref * (smp + smm))))
    else if Lam = 1/2 then
      .ok (unitConversion * (pref * smp))
    else if Lam = -(1/2) then
      .ok (unitConversion * (pref * smm))
    else .ok 0
  else .error csNotImplementedMsg

/-- The error raised by the final else of compute_bsa. -/
def bsaNotImplementedMsg : String :=
  "NotImplementedError: Acceptable values for target_polarization are -0.5, 0.0, and +0.5."

/-- DifferentialCrossSection.compute_bsa of core.py: the raw (no prefactor,
no unit constant) harmonic sums are combined into sigma_plus and sigma_minus
according to the target polarization (the Lambda = 0 case averages the two
base sums sharing each helicity), and the ratio of difference to sum is
returned. -/
def computeBsa (D : DCSModel) (phi : ℝ) (Lam : ℚ) : Except String ℝ :=
  let psi : ℝ := Real.pi - phi
  let spp := harmonicSum D.formalism_plus_beam_plus_target psi
  let smp := harmonicSum D.formalism_minus_beam_plus_target psi
  let spm := harmonicSum D.formalism_plus_beam_minus_target psi
  let smm := harmonicSum D.formalism_minus_beam_minus_target psi
  let sigmas : Except String (ℝ × ℝ) :=
    if Lam = 0 then .ok (0.5 * (spp + spm), 0.5 * (smp + smm))
    else if Lam = 1/2 then .ok (spp, smp)
    else if Lam = -(1/2) then .ok (spm, smm)
    else .error bsaNotImplementedMsg
  sigmas.map (fun sm => (sm.1 - sm.2) / (sm.1 + sm.2))

/-- DifferentialCrossSection.compute_dsa of core.py: no branching on
polarization, no prefactor and no unit constant; the four raw harmonic sums
feed the ratio directly. -/
def computeDsa (D : DCSModel) (phi : ℝ) : ℝ :=
  let psi : ℝ := Real.pi - phi
  let spp := harmonicSum D.formalism_plus_beam_plus_target psi
  let smp := harmonicSum D.formalism_minus_beam_plus_target psi
  let spm := harmonicSum D.formalism_plus_beam_minus_target psi
  let smm := harmonicSum D.formalism_minus_beam_minus_target psi
  ((spp - spm) - (smp - smm)) / (spp + spm + smp + smm)

/-- Modelled from the spec (for comparison with computeDsa): dsa(phi) =
[(sigma(++) - sigma(+-)) - (sigma(-+) - sigma(--))]
/ [sigma(++) + sigma(+-) + sigma(-+) + sigma(--)], with sigma(lambda,Lambda)
the four base-polarization harmonic sums used directly, never pre-averaged,
and with no unit-conversion constant or prefactor. -/
def dsaSpecValue (D : DCSModel) (phi : ℝ) : ℝ :=
  (harmonicSum D.formalism_plus_beam_plus_target (Real.pi - phi)
      - harmonicSum D.formalism_plus_beam_minus_target (Real.pi - phi)
    - (harmonicSum D.formalism_minus_beam_plus_target (Real.pi - phi)
      - harmonicSum D.formalism_minus_beam_minus_target (Real.pi - phi)))
  / (harmonicSum D.formalism_plus_beam_plus_target (Real.pi - phi)
      + harmonicSum D.formalism_plus_beam_minus_target (Real.pi - phi)
      + harmonicSum D.formalism_minus_beam_plus_target (Real.pi - phi)
      + harmonicSum D.formalism_minus_beam_minus_target (Real.pi - phi))

/-- Replace the prefactor of each of the four formalism instances (the
coefficient functions are untouched). -/
def withPrefactors (D : DCSModel) (p1 p2 p3 p4 : ℝ) : DCSModel :=
  { formalism_plus_beam_plus_target :=
      { D.formalism_plus_beam_plus_target with prefactor := p1 }
    formalism_minus_beam_plus_target :=
      { D.formalism_minus_beam_plus_target with prefactor := p2 }
    formalism_plus_beam_minus_target :=
      { D.formalism_plus_beam_minus_target with prefactor := p3 }
    formalism_minus_beam_minus_target :=
      { D.formalism_minus_beam_minus_target with prefactor := p4 } }

/-- A formalism instance whose seven coefficient functions vanish and whose
prefactor is one; used to instantiate theorems at a concrete input. -/
def zeroFormalism : BKMFormalismModel :=
  { c0 := fun _ => 0, c1 := fun _ => 0, c2 := fun _ => 0, c3 := fun _ => 0,
    s1 := fun _ => 0, s2 := fun _ => 0, s3 := fun _ => 0, prefactor := 1 }

/-- A concrete configured cross-section model built from zeroFormalism. -/
def zeroDCS : DCSModel :=
  { formalism_plus_beam_plus_target := zeroFormalism
    formalism_minus_beam_plus_target := zeroFormalism
    formalism_plus_beam_minus_target := zeroFormalism
    formalism_minus_beam_minus_target := zeroFormalism }

/-- A function on the reals with period two pi. -/
def IsPeriodicTwoPi (g : ℝ → ℝ) : Prop :=
  ∀ x, g (x + 2 * Real.pi) = g x

/-- All seven coefficient functions of a formalism instance are two-pi
periodic (per the spec the coefficients depend on the angle only through
k-dot-delta, i.e. through cos of the shifted angle, so this holds for the
intended coefficient functions; constants satisfy it trivially). -/
def CoeffsPeriodic (f : BKMFormalismModel) : Prop :=
  IsPeriodicTwoPi f.c0 ∧ IsPeriodicTwoPi f.c1 ∧ IsPeriodicTwoPi f.c2 ∧
    IsPeriodicTwoPi f.c3 ∧ IsPeriodicTwoPi f.s1 ∧ IsPeriodicTwoPi f.s2 ∧
    IsPeriodicTwoPi f.s3

theorem harmonicSum_sub_two_pi (f : BKMFormalismModel) (hf : CoeffsPeriodic f)
    (psi : ℝ) : harmonicSum f (psi - 2 * Real.pi) = harmonicSum f psi := by
  obtain ⟨h0, h1, h2, h3, hs1, hs2, hs3⟩ := hf
  have coeff : ∀ g : ℝ → ℝ, IsPeriodicTwoPi g → g (psi - 2 * Real.pi) = g psi := by
    intro g hg
    have := hg (psi - 2 * Real.pi)
    rw [show psi - 2 * Real.pi + 2 * Real.pi = psi by ring] at this
    exact this.symm
  have e0 : Real.cos (0 * (psi - 2 * Real.pi)) = Real.cos (0 * psi) := by
    rw [zero_mul, zero_mul]
  have e1 : Real.cos (1 * (psi - 2 * Real.pi)) = Real.cos (1 * psi) := by
    rw [one_mul, one_mul, Real.cos_sub_two_pi]
  have e2 : Real.cos (2 * (psi - 2 * Real.pi)) = Real.cos (2 * psi) := by
    rw [show (2 : ℝ) * (psi - 2 * Real.pi) = (2 * psi - 2 * Real.pi) - 2 * Real.pi by ring,
      Real.cos_sub_two_pi, Real.cos_sub_two_pi]
  have e3 : Real.cos (3 * (psi - 2 * Real.pi)) = Real.cos (3 * psi) := by
    rw [show (3 : ℝ) * (psi - 2 * Real.pi)
        = ((3 * psi - 2 * Real.pi) - 2 * Real.pi) - 2 * Real.pi by ring,
      Real.cos_sub_two_pi, Real.cos_sub_two_pi, Real.cos_sub_two_pi]
  have f1 : Real.sin (1 * (psi - 2 * Real.pi)) = Real.sin (1 * psi) := by
    rw [one_mul, one_mul, Real.sin_sub_two_pi]
  have f2 : Real.sin (2 * (psi - 2 * Real.pi)) = Real.sin (2 * psi) := by
    rw [show (2 : ℝ) * (psi - 2 * Real.pi) = (2 * psi - 2 * Real.pi) - 2 * Real.pi by ring,
      Real.sin_sub_two_pi, Real.sin_sub_two_pi]
  have f3 : Real.sin (3 * (psi - 2 * Real.pi)) = Real.sin (3 * psi) := by
    rw [show (3 : ℝ) * (psi - 2 * Real.pi)
        = ((3 * psi - 2 * Real.pi) - 2 * Real.pi) - 2 * Real.pi by ring,
      Real.sin_sub_two_pi, Real.sin_sub_two_pi, Real.sin_sub_two_pi]
  unfold harmonicSum
  rw [coeff f.c0 h0, coeff f.c1 h1, coeff f.c2 h2, coeff f.c3 h3,
    coeff f.s1 hs1, coeff f.s2 hs2, coeff f.s3 hs3, e0, e1, e2, e3, f1, f2, f3]

/-- The configuration dictionary of the literal scenario with kinematics and
cff_inputs but without the using_ww key. -/
def exampleConfig : PyDict :=
  [("kinematics", PyVal.kin testKinematics), ("cff_inputs", PyVal.cff testCffs)]

/-- Claim C9: validate_configuration returns exactly the same mapping if and
only if the mapping binds kinematics to a BKM10Inputs instance and cff_inputs
to a CFFInputs instance; any successful return is the unchanged input
mapping (the embedding is pure, so non-mutation is expressed by the result
being the very same association list). -/
theorem validate_configuration_contract (d : PyDict) (v : Bool) :
    (validateConfiguration d v = Except.ok d ↔
      (∃ K, dictGet d "kinematics" = some (PyVal.kin K)) ∧
      (∃ C, dictGet d "cff_inputs" = some (PyVal.cff C))) ∧
    (∀ r, validateConfiguration d v = Except.ok r → r = d) := by
  refine ⟨⟨?_, ?_⟩, validateConfiguration_ok_eq d v⟩
  · intro h
    unfold validateConfiguration at h
    rcases hk : dictGet d "kinematics" with _ | kv <;> rw [hk] at h
    · exact absurd h (by simp)
    · rcases hc : dictGet d "cff_inputs" with _ | cv <;> rw [hc] at h
      · exact absurd h (by simp)
      · cases kv with
        | kin K =>
          cases cv with
          | cff C => exact ⟨⟨K, rfl⟩, ⟨C, rfl⟩⟩
          | kin K2 => simp [pyTruthy] at h
          | pybool b => cases b <;> simp [pyTruthy] at h
          | pynone => simp [pyTruthy] at h
          | pyfloat q => by_cases hq : q = 0 <;> simp [pyTruthy, hq] at h
          | pystr s => by_cases hs : s = "" <;> simp [pyTruthy, hs] at h
        | cff C => simp [pyTruthy] at h
        | pybool b => cases b <;> simp [pyTruthy] at h
        | pynone => simp [pyTruthy] at h
        | pyfloat q => by_cases hq : q = 0 <;> simp [pyTruthy, hq] at h
        | pystr s => by_cases hs : s = "" <;> simp [pyTruthy, hs] at h
  · rintro ⟨⟨K, hK⟩, ⟨C, hC⟩⟩
    unfold validateConfiguration
    rw [hK, hC]
    rfl

/-- Claim C9, witness: the contract applied to the concrete two-key
configuration. -/
theorem validate_configuration_contract_witness :
    validateConfiguration exampleConfig false = Except.ok exampleConfig :=
  (validate_configuration_contract exampleConfig false).1.mpr
    ⟨⟨testKinematics, rfl⟩, ⟨testCffs, rfl⟩⟩

/-- Claim C5: DifferentialCrossSection construction from any non-None
configuration mapping fails.  First conjunct: the keyword arguments that
_build_formalism_beam_target passes are not all accepted by
BKMFormalism.__init__ (so the call raises TypeError); second conjunct: for
every dictionary, __init__ aborts with the generic initialisation
exception. -/
theorem construction_always_fails :
    (buildFormalismKwargNames.all fun k => bkmInitParamNames.contains k) = false ∧
    ∀ d : PyDict, dcsInit (some d) = Except.error initFailMsg :=
  ⟨by decide, dcsInit_some_error⟩

/-- Claim C3, counterexample: with a configuration holding valid kinematics
and cff_inputs but no using_ww key, construction raises instead of
succeeding with using_ww defaulted to false. -/
theorem construction_without_ww_counterexample :
    dcsInit (some exampleConfig) = Except.error initFailMsg :=
  dcsInit_some_error exampleConfig

/-- Claim C3, amended: for every valid kinematics and cff_inputs pair, the
two-key configuration lacks using_ww (first conjunct) and construction fails
with the initialisation exception (second conjunct); using_ww is read with a
bare subscript and is never defaulted. -/
theorem construction_without_ww_fails (K : BKM10Inputs) (C : CFFInputs) :
    dictGet [("kinematics", PyVal.kin K), ("cff_inputs", PyVal.cff C)] "using_ww" = none ∧
    dcsInit (some [("kinematics", PyVal.kin K), ("cff_inputs", PyVal.cff C)])
      = Except.error initFailMsg :=
  ⟨rfl, dcsInit_some_error _⟩

/-- Claim C4: at the literal test kinematics (Q2 = 1.82, xB = 0.34,
t = -0.17, k = 5.75) BKMFormalism construction raises AttributeError inside
_calculate_k_tilde (the read of the never-set attribute
squared_hadronic_momentum_transfer_t_minimum sits before the try-block), so
the K-tilde of the claim is never produced. -/
theorem k_tilde_attribute_error :
    bkmFormalismInit testKinematics = Except.error kTildeAttributeErrorMsg := by
  rfl

/-- Claim C7: compute_dsa equals the spec formula
[(sigma(++) - sigma(+-)) - (sigma(-+) - sigma(--))] over the sum of the four
base harmonic sums, and it is invariant under changing the four prefactors
(no prefactor and hence no unit constant enters the ratio). -/
theorem dsa_formula (D : DCSModel) (phi : ℝ) :
    computeDsa D phi = dsaSpecValue D phi ∧
    ∀ p1 p2 p3 p4 : ℝ, computeDsa (withPrefactors D p1 p2 p3 p4) phi = computeDsa D phi := by
  exact ⟨rfl, fun p1 p2 p3 p4 => rfl⟩

/-- Claim C8, counterexample: at Q2 = -1, xB = 0.34 the epsilon step returns
NaN as an ordinary value (Except.ok, no exception, no sentinel): np.sqrt of a
negative returns NaN with only a warning. -/
theorem epsilon_negative_q2_counterexample :
    calculateEpsilonRun (-1) (34/100) = Except.ok PyFloat.nan := by
  have h1 : npSqrt (.finite (-1 : ℝ)) = PyFloat.nan := by
    show (if (-1 : ℝ) < 0 then PyFloat.nan else PyFloat.finite (Real.sqrt (-1))) = PyFloat.nan
    rw [if_pos (by norm_num)]
  unfold calculateEpsilonRun calcEpsilon
  rw [h1]
  rfl

/-- Claim C8, amended: for Q2 below zero the epsilon derivation silently
returns NaN, and for Q2 equal to zero (with positive xB) it silently returns
positive infinity; in both cases the value comes back as an ordinary result
(Except.ok), no KinematicDomainError is raised and the except-branch sentinel
is not triggered. -/
theorem epsilon_nonpositive_q2_silent (Q2 xB : ℝ) :
    (Q2 < 0 → calculateEpsilonRun Q2 xB = Except.ok PyFloat.nan) ∧
    (Q2 = 0 → 0 < xB → calculateEpsilonRun Q2 xB = Except.ok PyFloat.inf) := by
  constructor
  · intro h
    have h1 : npSqrt (.finite Q2) = PyFloat.nan := by
      show (if Q2 < 0 then PyFloat.nan else PyFloat.finite (Real.sqrt Q2)) = PyFloat.nan
      rw [if_pos h]
    unfold calculateEpsilonRun calcEpsilon
    rw [h1]
    rfl
  · intro h0 hx
    subst h0
    have hm : (0 : ℝ) < MASS_OF_PROTON_IN_GEV := by norm_num [MASS_OF_PROTON_IN_GEV]
    have ha : (0 : ℝ) < 2 * xB * MASS_OF_PROTON_IN_GEV :=
      mul_pos (mul_pos two_pos hx) hm
    have h1 : npSqrt (.finite (0 : ℝ)) = PyFloat.finite 0 := by
      show (if (0 : ℝ) < 0 then PyFloat.nan else PyFloat.finite (Real.sqrt 0))
        = PyFloat.finite 0
      rw [if_neg (lt_irrefl 0), Real.sqrt_zero]
    unfold calculateEpsilonRun calcEpsilon
    rw [h1]
    show Except.ok (if (0 : ℝ) = 0 then
        (if 2 * xB * MASS_OF_PROTON_IN_GEV = 0 then PyFloat.nan
          else if 0 < 2 * xB * MASS_OF_PROTON_IN_GEV then PyFloat.inf else PyFloat.neginf)
      else PyFloat.finite (2 * xB * MASS_OF_PROTON_IN_GEV / 0))
      = Except.ok PyFloat.inf
    rw [if_pos rfl, if_neg (ne_of_gt ha), if_pos ha]

/-- Claim C8, witness for the amended theorem at Q2 = -2 (NaN) and at
Q2 = 0, xB = 1 (positive infinity). -/
theorem epsilon_nonpositive_q2_silent_witness :
    calculateEpsilonRun (-2) 0 = Except.ok PyFloat.nan ∧
    calculateEpsilonRun 0 1 = Except.ok PyFloat.inf :=
  ⟨(epsilon_nonpositive_q2_silent (-2) 0).1 (neg_lt_zero.mpr two_pos),
   (epsilon_nonpositive_q2_silent 0 1).2 rfl one_pos⟩

/-- Claim C2, counterexample: with legal lepton helicity +1 and illegal
target polarization 0.3, compute_cross_section returns the numeric value 0.0
(the initialised local falls through the Lambda branches) instead of raising
any exception. -/
theorem polarization_gap_counterexample :
    computeCrossSection zeroDCS 0 1 (3/10) = Except.ok 0 := by
  norm_num [computeCrossSection]

/-- Claim C2, amended: compute_cross_section raises NotImplementedError
exactly when the lepton helicity is outside -1, 0, +1; when the lepton
helicity is legal but the target polarization is outside -0.5, 0, +0.5 it
silently returns 0.0. -/
theorem polarization_handling_amended (D : DCSModel) (phi : ℝ) (lam Lam : ℚ) :
    (¬(lam = 0 ∨ lam = 1 ∨ lam = -1) →
      computeCrossSection D phi lam Lam = Except.error csNotImplementedMsg) ∧
    ((lam = 0 ∨ lam = 1 ∨ lam = -1) → ¬(Lam = 0 ∨ Lam = 1/2 ∨ Lam = -(1/2)) →
      computeCrossSection D phi lam Lam = Except.ok 0) := by
  constructor
  · intro h
    push_neg at h
    obtain ⟨h0, h1, h2⟩ := h
    simp [computeCrossSection, h0, h1, h2]
  · rintro (rfl | rfl | rfl) h <;>
      (push_neg at h; obtain ⟨g0, g1, g2⟩ := h;
        norm_num [computeCrossSection, g0, g1, g2])

/-- Claim C2, witness: the amended theorem applied at lepton helicity 2
(raises) and at helicity 0 with target polarization 0.9 (returns 0.0). -/
theorem polarization_handling_amended_witness :
    computeCrossSection zeroDCS 0 2 0 = Except.error csNotImplementedMsg ∧
    computeCrossSection zeroDCS 0 0 (9/10) = Except.ok 0 :=
  ⟨(polarization_handling_amended zeroDCS 0 2 0).1 (by norm_num),
   (polarization_handling_amended zeroDCS 0 0 (9/10)).2 (by norm_num) (by norm_num)⟩

/-- Claim C1: compute_cross_section at lambda = 0, Lambda = 0 equals exactly
(in real arithmetic) the mean of the four base-polarization cross sections at
the same phi, for every configuration (arbitrary coefficient functions and
prefactor) and every phi. -/
theorem averaging_invariant_cross_section (D : DCSModel) (phi : ℝ) :
    ∃ spp smp spm smm : ℝ,
      computeCrossSection D phi 1 (1/2) = Except.ok spp ∧
      computeCrossSection D phi (-1) (1/2) = Except.ok smp ∧
      computeCrossSection D phi 1 (-(1/2)) = Except.ok spm ∧
      computeCrossSection D phi (-1) (-(1/2)) = Except.ok smm ∧
      computeCrossSection D phi 0 0 = Except.ok ((spp + smp + spm + smm) / 4) := by
  refine ⟨unitConversion * (computePrefactor D *
      harmonicSum D.formalism_plus_beam_plus_target (Real.pi - phi)),
    unitConversion * (computePrefactor D *
      harmonicSum D.formalism_minus_beam_plus_target (Real.pi - phi)),
    unitConversion * (computePrefactor D *
      harmonicSum D.formalism_plus_beam_minus_target (Real.pi - phi)),
    unitConversion * (computePrefactor D *
      harmonicSum D.formalism_minus_beam_minus_target (Real.pi - phi)),
    ?_, ?_, ?_, ?_, ?_⟩
  · norm_num [computeCrossSection]
  · norm_num [computeCrossSection]
  · norm_num [computeCrossSection]
  · norm_num [computeCrossSection]
  · norm_num [computeCrossSection]
    ring

/-- A ratio of a difference to a sum is unchanged by scaling both entries
with the same nonzero factor. -/
theorem ratio_mul_invariant (c : ℝ) (hc : c ≠ 0) (x y x' y' : ℝ)
    (hx : x' = c * x) (hy : y' = c * y) :
    (x - y) / (x + y) = (x' - y') / (x' + y') := by
  subst hx
  subst hy
  rw [← mul_sub, ← mul_add, mul_div_mul_left _ _ hc]

/-- Claim C6: for every configuration with nonzero prefactor and every legal
target polarization, compute_bsa equals the ratio
(cross_section(phi,+1,Lambda) - cross_section(phi,-1,Lambda)) /
(cross_section(phi,+1,Lambda) + cross_section(phi,-1,Lambda)): the shared
prefactor and unit constant cancel, and for Lambda = 0 the internal sigmas
are the averages of the two base sums sharing each helicity. -/
theorem bsa_cross_section_ratio (D : DCSModel) (phi : ℝ) (Lam : ℚ)
    (hLam : Lam = 0 ∨ Lam = 1/2 ∨ Lam = -(1/2))
    (hpref : computePrefactor D ≠ 0) :
    ∃ sp sm : ℝ,
      computeCrossSection D phi 1 Lam = Except.ok sp ∧
      computeCrossSection D phi (-1) Lam = Except.ok sm ∧
      computeBsa D phi Lam = Except.ok ((sp - sm) / (sp + sm)) := by
  have hc : unitConversion * computePrefactor D ≠ 0 :=
    mul_ne_zero (by norm_num [unitConversion]) hpref
  rcases hLam with rfl | rfl | rfl
  · refine ⟨0.5 * (unitConversion * (computePrefactor D *
        (harmonicSum D.formalism_plus_beam_plus_target (Real.pi - phi)
          + harmonicSum D.formalism_plus_beam_minus_target (Real.pi - phi)))),
      0.5 * (unitConversion * (computePrefactor D *
        (harmonicSum D.formalism_minus_beam_plus_target (Real.pi - phi)
          + harmonicSum D.formalism_minus_beam_minus_target (Real.pi - phi)))),
      by norm_num [computeCrossSection], by norm_num [computeCrossSection], ?_⟩
    have key :
        (0.5 * (harmonicSum D.formalism_plus_beam_plus_target (Real.pi - phi)
            + harmonicSum D.formalism_plus_beam_minus_target (Real.pi - phi))
          - 0.5 * (harmonicSum D.formalism_minus_beam_plus_target (Real.pi - phi)
            + harmonicSum D.formalism_minus_beam_minus_target (Real.pi - phi)))
        / (0.5 * (harmonicSum D.formalism_plus_beam_plus_target (Real.pi - phi)
            + harmonicSum D.formalism_plus_beam_minus_target (Real.pi - phi))
          + 0.5 * (harmonicSum D.formalism_minus_beam_plus_target (Real.pi - phi)
            + harmonicSum D.formalism_minus_beam_minus_target (Real.pi - phi)))
        = ((0.5 * (unitConversion * (computePrefactor D *
            (harmonicSum D.formalism_plus_beam_plus_target (Real.pi - phi)
              + harmonicSum D.formalism_plus_beam_minus_target (Real.pi - phi)))))
          - (0.5 * (unitConversion * (computePrefactor D *
            (harmonicSum D.formalism_minus_beam_plus_target (Real.pi - phi)
              + harmonicSum D.formalism_minus_beam_minus_target (Real.pi - phi))))))
        / ((0.5 * (unitConversion * (computePrefactor D *
            (harmonicSum D.formalism_plus_beam_plus_target (Real.pi - phi)
              + harmonicSum D.formalism_plus_beam_minus_target (Real.pi - phi)))))
          + (0.5 * (unitConversion * (computePrefactor D *
            (harmonicSum D.formalism_minus_beam_plus_target (Real.pi - phi)
              + harmonicSum D.formalism_minus_beam_minus_target (Real.pi - phi)))))) :=
      ratio_mul_invariant (unitConversion * computePrefactor D) hc _ _ _ _
        (by ring) (by ring)
    calc computeBsa D phi 0
        = Except.ok
            ((0.5 * (harmonicSum D.formalism_plus_beam_plus_target (Real.pi - phi)
                + harmonicSum D.formalism_plus_beam_minus_target (Real.pi - phi))
              - 0.5 * (harmonicSum D.formalism_minus_beam_plus_target (Real.pi - phi)
                + harmonicSum D.formalism_minus_beam_minus_target (Real.pi - phi)))
            / (0.5 * (harmonicSum D.formalism_plus_beam_plus_target (Real.pi - phi)
                + harmonicSum D.formalism_plus_beam_minus_target (Real.pi - phi))
              + 0.5 * (harmonicSum D.formalism_minus_beam_plus_target (Real.pi - phi)
                + harmonicSum D.formalism_minus_beam_minus_target (Real.pi - phi)))) := by
          norm_num [computeBsa, Except.map]
      _ = _ := by rw [key]
  · refine ⟨unitConversion * (computePrefactor D *
        harmonicSum D.formalism_plus_beam_plus_target (Real.pi - phi)),
      unitConversion * (computePrefactor D *
        harmonicSum D.formalism_minus_beam_plus_target (Real.pi - phi)),
      by norm_num [computeCrossSection], by norm_num [computeCrossSection], ?_⟩
    have key :
        (harmonicSum D.formalism_plus_beam_plus_target (Real.pi - phi)
          - harmonicSum D.formalism_minus_beam_plus_target (Real.pi - phi))
        / (harmonicSum D.formalism_plus_beam_plus_target (Real.pi - phi)
          + harmonicSum D.formalism_minus_beam_plus_target (Real.pi - phi))
        = (unitConversion * (computePrefactor D *
            harmonicSum D.formalism_plus_beam_plus_target (Real.pi - phi))
          - unitConversion * (computePrefactor D *
            harmonicSum D.formalism_minus_beam_plus_target (Real.pi - phi)))
        / (unitConversion * (computePrefactor D *
            harmonicSum D.formalism_plus_beam_plus_target (Real.pi - phi))
          + unitConversion * (computePrefactor D *
            harmonicSum D.formalism_minus_beam_plus_target (Real.pi - phi))) :=
      ratio_mul_invariant (unitConversion * computePrefactor D) hc _ _ _ _
        (by ring) (by ring)
    calc computeBsa D phi (1/2)
        = Except.ok
            ((harmonicSum D.formalism_plus_beam_plus_target (Real.pi - phi)
              - harmonicSum D.formalism_minus_beam_plus_target (Real.pi - phi))
            / (harmonicSum D.formalism_plus_beam_plus_target (Real.pi - phi)
              + harmonicSum D.formalism_minus_beam_plus_target (Real.pi - phi))) := by
          norm_num [computeBsa, Except.map]
      _ = _ := by rw [key]
  · refine ⟨unitConversion * (computePrefactor D *
        harmonicSum D.formalism_plus_beam_minus_target (Real.pi - phi)),
      unitConversion * (computePrefactor D *
        harmonicSum D.formalism_minus_beam_minus_target (Real.pi - phi)),
      by norm_num [computeCrossSection], by norm_num [computeCrossSection], ?_⟩
    have key :
        (harmonicSum D.formalism_plus_beam_minus_target (Real.pi - phi)
          - harmonicSum D.formalism_minus_beam_minus_target (Real.pi - phi))
        / (harmonicSum D.formalism_plus_beam_minus_target (Real.pi - phi)
          + harmonicSum D.formalism_minus_beam_minus_target (Real.pi - phi))
        = (unitConversion * (computePrefactor D *
            harmonicSum D.formalism_plus_beam_minus_target (Real.pi - phi))
          - unitConversion * (computePrefactor D *
            harmonicSum D.formalism_minus_beam_minus_target (Real.pi - phi)))
        / (unitConversion * (computePrefactor D *
            harmonicSum D.formalism_plus_beam_minus_target (Real.pi - phi))
          + unitConversion * (computePrefactor D *
            harmonicSum D.formalism_minus_beam_minus_target (Real.pi - phi))) :=
      ratio_mul_invariant (unitConversion * computePrefactor D) hc _ _ _ _
        (by ring) (by ring)
    calc computeBsa D phi (-(1/2))
        = Except.ok
            ((harmonicSum D.formalism_plus_beam_minus_target (Real.pi - phi)
              - harmonicSum D.formalism_minus_beam_minus_target (Real.pi - phi))
            / (harmonicSum D.formalism_plus_beam_minus_target (Real.pi - phi)
              + harmonicSum D.formalism_minus_beam_minus_target (Real.pi - phi))) := by
          norm_num [computeBsa, Except.map]
      _ = _ := by rw [key]

/-- The zero coefficient functions are two-pi periodic. -/
theorem zeroFormalism_periodic : CoeffsPeriodic zeroFormalism :=
  ⟨fun _ => rfl, fun _ => rfl, fun _ => rfl, fun _ => rfl,
   fun _ => rfl, fun _ => rfl, fun _ => rfl⟩

/-- Claim C6, witness: the ratio identity at the zero-coefficient model with
prefactor one, phi = 0, Lambda = 0. -/
theorem bsa_cross_section_ratio_witness :
    ∃ sp sm : ℝ,
      computeCrossSection zeroDCS 0 1 0 = Except.ok sp ∧
      computeCrossSection zeroDCS 0 (-1) 0 = Except.ok sm ∧
      computeBsa zeroDCS 0 0 = Except.ok ((sp - sm) / (sp + sm)) :=
  bsa_cross_section_ratio zeroDCS 0 0 (Or.inl rfl) one_ne_zero

/-- Claim C10: compute_cross_section is exactly two-pi periodic in phi, for
every polarization pair, provided each coefficient function of the four
formalism instances is two-pi periodic (which holds for the intended
coefficients, whose phi dependence enters through cosine of the shifted
angle). -/
theorem cross_section_phi_periodicity (D : DCSModel)
    (hpp : CoeffsPeriodic D.formalism_plus_beam_plus_target)
    (hmp : CoeffsPeriodic D.formalism_minus_beam_plus_target)
    (hpm : CoeffsPeriodic D.formalism_plus_beam_minus_target)
    (hmm : CoeffsPeriodic D.formalism_minus_beam_minus_target)
    (phi : ℝ) (lam Lam : ℚ) :
    computeCrossSection D (phi + 2 * Real.pi) lam Lam
      = computeCrossSection D phi lam Lam := by
  have key : ∀ f : BKMFormalismModel, CoeffsPeriodic f →
      harmonicSum f (Real.pi - (phi + 2 * Real.pi)) = harmonicSum f (Real.pi - phi) := by
    intro f hf
    rw [show Real.pi - (phi + 2 * Real.pi) = (Real.pi - phi) - 2 * Real.pi by ring]
    exact harmonicSum_sub_two_pi f hf (Real.pi - phi)
  simp only [computeCrossSection]
  rw [key _ hpp, key _ hmp, key _ hpm, key _ hmm]

/-- Claim C10, witness: periodicity at the zero-coefficient model, phi = 0,
lambda = 1, Lambda = 1/2. -/
theorem cross_section_phi_periodicity_witness :
    computeCrossSection zeroDCS (0 + 2 * Real.pi) 1 (1/2)
      = computeCrossSection zeroDCS 0 1 (1/2) :=
  cross_section_phi_periodicity zeroDCS zeroFormalism_periodic zeroFormalism_periodic
    zeroFormalism_periodic zeroFormalism_periodic 0 1 (1/2)
